import Mathlib

/-!
# Verification of the runDB MongoDB conditions-database adapter

This file gives a shallow embedding of the core logic of the runDB
repository (the `MongoToCDBAPIAdapter` class in
`databases/mongodb/mongodbadapter.py` together with the helper functions in
`databases/mongodb/helpers.py`) and proves or refutes the testable
properties stated in the specification.

Modelling conventions:

* Python exceptions become an explicit error type `PyError`; every adapter
  method returns `Except PyError _`.  A method that ends in `.error` has
  performed no persistence (the embedding threads the store functionally).
* Python `datetime` values are modelled at second precision (the adapter
  strips microseconds from every timestamp it stores), as a six-field
  record ordered lexicographically, exactly as Python compares `datetime`s.
* Arguments that the adapter accepts "as String or datetime" are modelled
  by the sum type `TimeParam`.
* The document store itself is out of scope, per the specification, and is
  treated as a generic document collection: `save` on a document persists
  it (create-or-update keyed by the collection's lookup key), `delete`
  removes it, `objects().get(...)` returns the first match.
* The repository's `models/detector.py`, `models/detectorWrapper.py` and
  `models/condition.py` are not present in the source tree.  The shapes of
  `Detector`, `DetectorWrapper` and `Condition` below are modelled from the
  spec (data-model section) and from how the adapter uses them.
* Python name-resolution failures are embedded faithfully: the adapter
  class never defines `__get_fill`, `__get_run` or `__get_file`, so the
  corresponding attribute lookups are modelled by `Option`-valued markers
  that are `none`; a bare reference to an undefined global or local name
  is embedded as a `nameError` result at the corresponding program point.
-/

set_option autoImplicit false

namespace RunDB

/-- Python exceptions raised by the adapter, by kind and message. -/
inductive PyError where
  | typeError (msg : String)
  | valueError (msg : String)
  | nameError (msg : String)
  | attributeError (msg : String)
  deriving DecidableEq, Repr

/-- A Python `datetime` at second precision (the adapter stores every
timestamp with microseconds stripped).  Comparison is lexicographic on the
six fields, as in Python. -/
structure DateTime where
  year : Nat
  month : Nat
  day : Nat
  hour : Nat
  minute : Nat
  second : Nat
  deriving DecidableEq, Repr

instance : Inhabited DateTime := ⟨⟨1900, 1, 1, 0, 0, 0⟩⟩

/-- Strict comparison of datetimes, lexicographic on the fields
(the embedding of Python `<` on `datetime`). -/
def dtLt (a b : DateTime) : Bool :=
  if a.year ≠ b.year then decide (a.year < b.year)
  else if a.month ≠ b.month then decide (a.month < b.month)
  else if a.day ≠ b.day then decide (a.day < b.day)
  else if a.hour ≠ b.hour then decide (a.hour < b.hour)
  else if a.minute ≠ b.minute then decide (a.minute < b.minute)
  else decide (a.second < b.second)

/-- Non-strict comparison (Python `<=`); datetimes are totally ordered, so
`a <= b` is the negation of `b < a`. -/
def dtLe (a b : DateTime) : Bool := !(dtLt b a)

/-- Embedding of Python `str.strip()` on a character list: drop whitespace
from both ends. -/
def pyStripChars (cs : List Char) : List Char :=
  ((cs.dropWhile Char.isWhitespace).reverse.dropWhile Char.isWhitespace).reverse

/-- helpers.sanitize_str: remove whitespace at both ends of the string. -/
def sanitize_str (s : String) : String :=
  String.mk (pyStripChars s.toList)

/-- Drop a given character from both ends of a character list
(Python `str.strip("/")`). -/
def stripCharEnds (x : Char) (cs : List Char) : List Char :=
  ((cs.dropWhile (fun c => c = x)).reverse.dropWhile (fun c => c = x)).reverse

/-- helpers.sanitize_path: strip whitespace, then strip slashes at both
ends. -/
def sanitize_path (s : String) : String :=
  String.mk (stripCharEnds '/' (sanitize_str s).toList)

/-- Split a character list on a separator character, Python
`str.split(sep)` semantics: splitting the empty string yields one empty
group. -/
def splitOnChar (sep : Char) : List Char → List (List Char)
  | [] => [[]]
  | c :: rest =>
    let r := splitOnChar sep rest
    if c = sep then [] :: r
    else
      match r with
      | [] => [[c]]
      | g :: gs => (c :: g) :: gs

/-- helpers.split_detector_names: sanitize the path, then split it on
slashes.  (The string-typedness check `validate_path` always succeeds in
the typed embedding.) -/
def split_detector_names (detector_id : String) : List String :=
  (splitOnChar '/' (sanitize_path detector_id).toList).map String.mk

/-! ## Embedding of `helpers.convert_date` (Python `datetime.strptime`)

`convert_date` tries the formats `%Y`, `%Y-%m`, `%Y-%m-%d`, `%Y-%m-%d %H`,
`%Y-%m-%d %H:%M`, `%Y-%m-%d %H:%M:%S` in order and returns the first
successful parse.  The token parsers below mirror CPython's `_strptime`
regular expressions for the directives involved (`%Y` is exactly four
digits; the other numeric directives accept one or two digits subject to
the range shown), the whole string must be consumed, and the resulting
fields must form a constructible `datetime` (valid day for the month,
second at most 59, year at least 1). -/

/-- Numeric value of a digit character. -/
def dval (c : Char) : Nat := c.toNat - '0'.toNat

/-- Parse exactly four digits (CPython regex for `%Y`). -/
def pYear4 : List Char → Option (Nat × List Char)
  | a :: b :: c :: d :: rest =>
    if a.isDigit && b.isDigit && c.isDigit && d.isDigit then
      some (1000 * dval a + 100 * dval b + 10 * dval c + dval d, rest)
    else none
  | _ => none

/-- Parse a one- or two-digit number: prefer the two-digit form when its
value satisfies `okTwo`, otherwise accept a single digit satisfying
`okOne`.  This mirrors the ordered alternations in CPython's strptime
regexes for `%m`, `%d`, `%H`, `%M`, `%S`. -/
def pTwoOrOne (okTwo okOne : Nat → Bool) : List Char → Option (Nat × List Char)
  | a :: b :: rest =>
    if a.isDigit && b.isDigit && okTwo (10 * dval a + dval b) then
      some (10 * dval a + dval b, rest)
    else if a.isDigit && okOne (dval a) then
      some (dval a, b :: rest)
    else none
  | [a] => if a.isDigit && okOne (dval a) then some (dval a, []) else none
  | [] => none

/-- `%m`: two digits in 1..12 (no "00"), or one digit in 1..9. -/
def pMonth : List Char → Option (Nat × List Char) :=
  pTwoOrOne (fun v => decide (1 ≤ v) && decide (v ≤ 12)) (fun v => decide (1 ≤ v))

/-- `%d`: two digits in 1..31 (no "00"), or one digit in 1..9. -/
def pDay : List Char → Option (Nat × List Char) :=
  pTwoOrOne (fun v => decide (1 ≤ v) && decide (v ≤ 31)) (fun v => decide (1 ≤ v))

/-- `%H`: two digits in 0..23, or one digit. -/
def pHour : List Char → Option (Nat × List Char) :=
  pTwoOrOne (fun v => decide (v ≤ 23)) (fun _ => true)

/-- `%M`: two digits in 0..59, or one digit. -/
def pMinute : List Char → Option (Nat × List Char) :=
  pTwoOrOne (fun v => decide (v ≤ 59)) (fun _ => true)

/-- `%S`: two digits in 0..61 (strptime admits leap seconds at the regex
level), or one digit. -/
def pSecond : List Char → Option (Nat × List Char) :=
  pTwoOrOne (fun v => decide (v ≤ 61)) (fun _ => true)

/-- Parse one literal character. -/
def pLit (x : Char) : List Char → Option (List Char)
  | c :: rest => if c = x then some rest else none
  | [] => none

/-- Parse one or more whitespace characters (strptime turns a space in the
format into `\s+`). -/
def pWs : List Char → Option (List Char)
  | c :: rest => if c.isWhitespace then some (rest.dropWhile Char.isWhitespace) else none
  | [] => none

/-- Whether a year is a leap year (Gregorian rule, as in Python's
`calendar`/`datetime`). -/
def isLeap (y : Nat) : Bool :=
  (y % 4 = 0 && y % 100 ≠ 0) || y % 400 = 0

/-- Number of days in a month of a given year. -/
def daysInMonth (y m : Nat) : Nat :=
  if m = 2 then (if isLeap y then 29 else 28)
  else if m = 4 || m = 6 || m = 9 || m = 11 then 30
  else 31

/-- Final validation performed by the `datetime` constructor after the
regex match: the year is at least 1, the day fits the month, and the
second is at most 59. -/
def mkDate (y m d hh mm ss : Nat) : Option DateTime :=
  if decide (1 ≤ y) && decide (1 ≤ d) && decide (d ≤ daysInMonth y m) && decide (ss ≤ 59) then
    some ⟨y, m, d, hh, mm, ss⟩
  else none

/-- strptime with format `%Y`. -/
def strptimeY (s : String) : Option DateTime := do
  let (y, r) ← pYear4 s.toList
  if r.isEmpty then mkDate y 1 1 0 0 0 else none

/-- strptime with format `%Y-%m`. -/
def strptimeYM (s : String) : Option DateTime := do
  let (y, r1) ← pYear4 s.toList
  let r2 ← pLit '-' r1
  let (m, r3) ← pMonth r2
  if r3.isEmpty then mkDate y m 1 0 0 0 else none

/-- strptime with format `%Y-%m-%d`. -/
def strptimeYMD (s : String) : Option DateTime := do
  let (y, r1) ← pYear4 s.toList
  let r2 ← pLit '-' r1
  let (m, r3) ← pMonth r2
  let r4 ← pLit '-' r3
  let (d, r5) ← pDay r4
  if r5.isEmpty then mkDate y m d 0 0 0 else none

/-- strptime with format `%Y-%m-%d %H`. -/
def strptimeYMDH (s : String) : Option DateTime := do
  let (y, r1) ← pYear4 s.toList
  let r2 ← pLit '-' r1
  let (m, r3) ← pMonth r2
  let r4 ← pLit '-' r3
  let (d, r5) ← pDay r4
  let r6 ← pWs r5
  let (hh, r7) ← pHour r6
  if r7.isEmpty then mkDate y m d hh 0 0 else none

/-- strptime with format `%Y-%m-%d %H:%M`. -/
def strptimeYMDHM (s : String) : Option DateTime := do
  let (y, r1) ← pYear4 s.toList
  let r2 ← pLit '-' r1
  let (m, r3) ← pMonth r2
  let r4 ← pLit '-' r3
  let (d, r5) ← pDay r4
  let r6 ← pWs r5
  let (hh, r7) ← pHour r6
  let r8 ← pLit ':' r7
  let (mm, r9) ← pMinute r8
  if r9.isEmpty then mkDate y m d hh mm 0 else none

/-- strptime with format `%Y-%m-%d %H:%M:%S`. -/
def strptimeYMDHMS (s : String) : Option DateTime := do
  let (y, r1) ← pYear4 s.toList
  let r2 ← pLit '-' r1
  let (m, r3) ← pMonth r2
  let r4 ← pLit '-' r3
  let (d, r5) ← pDay r4
  let r6 ← pWs r5
  let (hh, r7) ← pHour r6
  let r8 ← pLit ':' r7
  let (mm, r9) ← pMinute r8
  let r10 ← pLit ':' r9
  let (ss, r11) ← pSecond r10
  if r11.isEmpty then mkDate y m d hh mm ss else none

/-- The error message raised when no format matches in
`helpers.convert_date`. -/
def convertDateErrMsg : String :=
  "Please pass the correct date input. This date string should contain only digits/:/ /-. The minimum length could be 4 digits, representing the year. "

/-- helpers.convert_date: try the six formats in order and return the
first successful parse; raise ValueError when none matches. -/
def convert_date (s : String) : Except PyError DateTime :=
  match strptimeY s with
  | some d => .ok d
  | none =>
    match strptimeYM s with
    | some d => .ok d
    | none =>
      match strptimeYMD s with
      | some d => .ok d
      | none =>
        match strptimeYMDH s with
        | some d => .ok d
        | none =>
          match strptimeYMDHM s with
          | some d => .ok d
          | none =>
            match strptimeYMDHMS s with
            | some d => .ok d
            | none => .error (.valueError convertDateErrMsg)

/-! ## Timestamp parameters

Several adapter methods accept a timestamp "as String or datetime"; the
code branches on `validate_str` / `validate_datetime`. -/

/-- A timestamp argument: either a date string or a `datetime` object. -/
inductive TimeParam where
  | str (s : String)
  | dt (d : DateTime)
  deriving DecidableEq, Repr

/-- The working conversion branch used for `end_time` (and for the
condition timestamps): a string goes through `convert_date`, a datetime
has its microseconds stripped (the identity at second precision). -/
def convertTime : TimeParam → Except PyError DateTime
  | .str s => convert_date s
  | .dt d => .ok d

/-- The broken conversion branch used for `start_time` in `add_fill`,
`add_run` and `add_file`: the string case works, but the datetime case is
guarded by `validate_datetime(valid_until)` where `valid_until` is an
undefined local name, so evaluating the guard raises NameError. -/
def convertStartBroken : TimeParam → Except PyError DateTime
  | .str s => convert_date s
  | .dt _ => .error (.nameError "name valid_until is not defined")

/-- Optional timestamp conversion used by
`update_condition_by_name_and_tag`: `None` stays `None`. -/
def convertOptTime : Option TimeParam → Except PyError (Option DateTime)
  | none => .ok none
  | some t => (convertTime t).map some

/-! ## Entity model and store

`Fill` follows `models/fill.py`.  `Detector`, `DetectorWrapper` and
`Condition` are modelled from the spec: their model files are absent from
the source tree (see the file header).  The store holds the two document
collections the embedded methods touch: detector wrappers (keyed by root
name) and fills. -/

/-- A fill record (`models/fill.py`): fill number and time range.
(The attributes list is never touched by the embedded methods and is
omitted.) -/
structure Fill where
  fill_id : String
  start_time : DateTime
  end_time : DateTime
  deriving DecidableEq, Repr

/-- The run record that `__get_run` would return if it existed.
(`models/run.py`.) -/
structure RunRec where
  run_id : String
  fill_id : String
  start_time : DateTime
  end_time : DateTime
  deriving DecidableEq, Repr

/-- The file record that `__get_file` would return if it existed.
(`models/file.py`.) -/
structure FileRec where
  file_id : String
  run_id : String
  start_time : DateTime
  end_time : DateTime
  deriving DecidableEq, Repr

/-- Modelled from the spec: a condition record (`models/condition.py` is
absent from the source tree).  Fields per the data-model section:
name, tag, optional type, values, and three second-precision timestamps. -/
structure Condition where
  name : String
  tag : String
  condType : Option String
  values : String
  collected_at : DateTime
  valid_since : DateTime
  valid_until : DateTime
  deriving DecidableEq, Repr

/-- Modelled from the spec: a detector node (`models/detector.py` is
absent from the source tree): a name, an ordered list of subdetectors and
an ordered list of conditions. -/
inductive Detector where
  | mk (name : String) (subdetectors : List Detector) (conditions : List Condition)

/-- Name of a detector node. -/
def Detector.name : Detector → String
  | .mk n _ _ => n

/-- Subdetector list of a detector node. -/
def Detector.subdetectors : Detector → List Detector
  | .mk _ s _ => s

/-- Condition list of a detector node. -/
def Detector.conditions : Detector → List Condition
  | .mk _ _ c => c

instance : Inhabited Detector := ⟨.mk "" [] []⟩

@[simp] lemma Detector.name_mk (n : String) (s : List Detector) (c : List Condition) :
    (Detector.mk n s c).name = n := rfl

@[simp] lemma Detector.subdetectors_mk (n : String) (s : List Detector) (c : List Condition) :
    (Detector.mk n s c).subdetectors = s := rfl

@[simp] lemma Detector.conditions_mk (n : String) (s : List Detector) (c : List Condition) :
    (Detector.mk n s c).conditions = c := rfl

/-- Modelled from the spec: the root container owning one detector tree
(`models/detectorWrapper.py` is absent from the source tree), keyed by the
root name. -/
structure DetectorWrapper where
  name : String
  detector : Detector

/-- The document store: the wrapper collection and the fill collection.
The store is treated as a generic document collection per the spec;
runs and files need no collection because `add_run`/`add_file` always
fail before persisting (see below). -/
structure Store where
  wrappers : List DetectorWrapper
  fills : List Fill

/-- The empty database. -/
def emptyStore : Store := ⟨[], []⟩

/-- mongoengine `save()` on a `DetectorWrapper`: create-or-update keyed by
the wrapper's lookup key (its root name) — replace the first wrapper with
the same name, or insert the document if absent. -/
def upsertWrapper (w : DetectorWrapper) : List DetectorWrapper → List DetectorWrapper
  | [] => [w]
  | x :: xs => if x.name == w.name then w :: xs else x :: upsertWrapper w xs

/-- Persist a wrapper into the store. -/
def Store.saveWrapper (s : Store) (w : DetectorWrapper) : Store :=
  { s with wrappers := upsertWrapper w s.wrappers }

/-- Remove the first element satisfying a predicate (the embedding of
`list.pop(i)` at the first matching index, and of document deletion). -/
def removeFirst {α : Type} (p : α → Bool) : List α → List α
  | [] => []
  | a :: as => if p a then as else a :: removeFirst p as

/-- Replace the first element satisfying a predicate by its image under a
function (in-place mutation of the first match in Python). -/
def updateFirst {α : Type} (p : α → Bool) (f : α → α) : List α → List α
  | [] => []
  | a :: as => if p a then f a :: as else a :: updateFirst p f as

/-! ## Fill / run / file methods -/

/-- The adapter class never defines a method `__get_fill`; the attribute
lookup `self.__get_fill` therefore raises AttributeError.  The class's
private helper slot is recorded explicitly as absent. -/
def privateGetFill : Option (Store → String → Except PyError Fill) := none

/-- The adapter class never defines a method `__get_run`. -/
def privateGetRun : Option (Store → String → Except PyError RunRec) := none

/-- The adapter class never defines a method `__get_file`. -/
def privateGetFile : Option (Store → String → Except PyError FileRec) := none

/-- MongoToCDBAPIAdapter.get_fill: empty-id check, sanitize, then call the
(undefined) private helper inside a `try` whose `except Exception` rewraps
any failure as the not-found ValueError. -/
def get_fill (s : Store) (fill_id : String) : Except PyError Fill :=
  if fill_id = "" then
    .error (.valueError "Please specify a valid fill number. A fill number cannot be empty.")
  else
    let fid := sanitize_str fill_id
    let attempt : Except PyError Fill :=
      match privateGetFill with
      | none => .error (.attributeError "MongoToCDBAPIAdapter object has no attribute __get_fill")
      | some f => f s fid
    match attempt with
    | .ok fill => .ok fill
    | .error _ => .error (.valueError ("The requested fill " ++ fid ++ " does not exist."))

/-- MongoToCDBAPIAdapter.get_run: same shape as `get_fill`, calling the
(undefined) `__get_run`. -/
def get_run (s : Store) (run_id : String) : Except PyError RunRec :=
  if run_id = "" then
    .error (.valueError "Please specify a valid run number. A run number cannot be empty.")
  else
    let rid := sanitize_str run_id
    let attempt : Except PyError RunRec :=
      match privateGetRun with
      | none => .error (.attributeError "MongoToCDBAPIAdapter object has no attribute __get_run")
      | some f => f s rid
    match attempt with
    | .ok r => .ok r
    | .error _ => .error (.valueError ("The requested run " ++ rid ++ " does not exist."))

/-- MongoToCDBAPIAdapter.get_file: same shape as `get_fill`, calling the
(undefined) `__get_file`.  (The source message lacks the space after
"file".) -/
def get_file (s : Store) (file_id : String) : Except PyError FileRec :=
  if file_id = "" then
    .error (.valueError "Please specify a valid file number. A file number cannot be empty.")
  else
    let fid := sanitize_str file_id
    let attempt : Except PyError FileRec :=
      match privateGetFile with
      | none => .error (.attributeError "MongoToCDBAPIAdapter object has no attribute __get_file")
      | some f => f s fid
    match attempt with
    | .ok r => .ok r
    | .error _ => .error (.valueError ("The requested file" ++ fid ++ " does not exist."))

/-- MongoToCDBAPIAdapter.add_fill: empty-id check; start-time conversion
through the broken branch (NameError on a datetime argument); end-time
conversion; interval check; then construct the fill (with the id exactly
as passed, unsanitized) and save it.  There is no uniqueness check on
`fill_id`. -/
def add_fill (s : Store) (fill_id : String) (start_time end_time : TimeParam) :
    Except PyError Store :=
  if fill_id = "" then .error (.typeError "Fill_id should not be empty")
  else do
    let st ← convertStartBroken start_time
    let et ← convertTime end_time
    if dtLt et st then .error (.valueError "Incorrect validity interval")
    else pure { s with fills := s.fills ++ [{ fill_id := fill_id, start_time := st, end_time := et }] }

/-- MongoToCDBAPIAdapter.add_run: empty checks; the same broken start-time
branch; interval check; then the guard `if get_fill(fill_id) == ""`
references the bare name `get_fill`, which does not exist in the module
globals, so every call that reaches this point raises NameError.  No
containment check against the parent fill is ever performed and no run is
ever saved. -/
def add_run (_s : Store) (run_id fill_id : String) (start_time end_time : TimeParam) :
    Except PyError Store :=
  if run_id = "" || fill_id = "" then .error (.typeError "Run_id or Fill_id should not be empty")
  else do
    let st ← convertStartBroken start_time
    let et ← convertTime end_time
    if dtLt et st then .error (.valueError "Incorrect validity interval")
    else .error (.nameError "name get_fill is not defined")

/-- MongoToCDBAPIAdapter.add_file: empty checks; the same broken
start-time branch; interval check; then `if get_run(run_id) == ""`
references the bare undefined name `get_run` and raises NameError, so no
file is ever saved. -/
def add_file (_s : Store) (run_id file_id : String) (start_time end_time : TimeParam) :
    Except PyError Store :=
  if run_id = "" || file_id = "" then .error (.typeError "Run_id or File_id should not be empty")
  else do
    let st ← convertStartBroken start_time
    let et ← convertTime end_time
    if dtLt et st then .error (.valueError "Incorrect validity interval")
    else .error (.nameError "name get_run is not defined")

/-! ## Detector tree resolver

`__get_wrapper` looks up the wrapper whose name is the first path segment;
`__get_detector` walks the remaining segments through the subdetector
lists (mongoengine `.get(name=...)`, embedded as first match).  The
source methods re-wrap resolution failures in per-method ValueError
messages; the embedding keeps a single ValueError per failure point, as
only the error kind is observable for the claims. -/

/-- MongoToCDBAPIAdapter.__get_wrapper: find the wrapper named like the
first segment of the (sanitized, split) id. -/
def getWrapper (s : Store) (wrapper_id : String) : Except PyError DetectorWrapper :=
  match s.wrappers.find? (fun w => w.name == (split_detector_names wrapper_id).headD "") with
  | some w => .ok w
  | none =>
    .error (.valueError ("The detector wrapper " ++ (split_detector_names wrapper_id).headD ""
      ++ " does not exist in the database"))

/-- The walk of MongoToCDBAPIAdapter.__get_detector over the path
segments after the root: at each step take the first subdetector with the
segment's name, failing with ValueError when absent.  (The source message
interpolates the partial path; the embedding keeps a fixed message.) -/
def getDetectorAux : Detector → List String → Except PyError Detector
  | d, [] => .ok d
  | d, n :: rest =>
    match d.subdetectors.find? (fun c => c.name == n) with
    | none => .error (.valueError "The detector does not exist in the database")
    | some sub => getDetectorAux sub rest

/-- MongoToCDBAPIAdapter.__get_detector on a wrapper and a full path. -/
def getDetector (w : DetectorWrapper) (detector_id : String) : Except PyError Detector :=
  getDetectorAux w.detector ((split_detector_names detector_id).drop 1)

/-- Resolution of a detector id to its wrapper and node, the common
prelude of every condition method (each source method performs the
`__get_wrapper` then `__get_detector` calls in sequence). -/
def resolveDetector (s : Store) (detector_id : String) :
    Except PyError (DetectorWrapper × Detector) :=
  match getWrapper s detector_id with
  | .error e => .error e
  | .ok w =>
    match getDetector w detector_id with
    | .error e => .error e
    | .ok d => .ok (w, d)

/-- Replace the first element satisfying a predicate by a given value
(the list-level step of the tree rebuild below). -/
def setFirstBy {α : Type} (p : α → Bool) (x : α) : List α → List α
  | [] => []
  | c :: cs => if p c then x :: cs else c :: setFirstBy p x cs

/-- Apply a function to the tree node reached by walking the given path
segments (first-match by name at each level), rebuilding the tree along
the way.  This is the functional rendering of the Python code mutating
the resolved (aliased) node and then saving the whole wrapper. -/
def Detector.modifyAt : List String → (Detector → Detector) → Detector → Detector
  | [], f, d => f d
  | n :: rest, f, d =>
    match d.subdetectors.find? (fun c => c.name == n) with
    | none => d
    | some sub =>
      Detector.mk d.name
        (setFirstBy (fun c => c.name == n) (Detector.modifyAt rest f sub) d.subdetectors)
        d.conditions

/-! ## Detector add / remove / list -/

/-- The root branch of add_detector (`__add_wrapper` plus attaching the
root detector): fail when a wrapper with the name exists, otherwise
insert the new wrapper document. -/
def addRootDetector (s : Store) (nm : String) : Except PyError Store :=
  match s.wrappers.find? (fun w => w.name == nm) with
  | some _ => .error (.valueError ("The detector " ++ nm ++ " already exists"))
  | none => .ok { s with wrappers := s.wrappers ++ [{ name := nm, detector := Detector.mk nm [] [] }] }

/-- MongoToCDBAPIAdapter.add_detector.  Root branch (no parent): reject an
empty name or a name containing a slash, sanitize, and create the wrapper
with its root detector unless a wrapper with that name exists.
Subdetector branch: resolve the parent path, reject a duplicate sibling
name, append the new child and save the wrapper. -/
def add_detector (s : Store) (name : String) (parent_id : Option String) :
    Except PyError Store :=
  if name = "" then
    .error (.valueError "name should not be an empty string")
  else if name.toList.contains '/' then
    .error (.valueError "The name parameter cannot contain a / ")
  else
    let nm := sanitize_str name
    match parent_id with
    | none => addRootDetector s nm
    | some p =>
      if p = "" then addRootDetector s nm
      else do
        let pid := sanitize_path p
        let names := split_detector_names pid
        let w ←
          match s.wrappers.find? (fun w => w.name == names.headD "") with
          | some w => Except.ok w
          | none => Except.error (.valueError ("The detector " ++ names.headD "" ++ " does not exist in the database"))
        let det ← getDetector w pid
        match det.subdetectors.find? (fun c => c.name == nm) with
        | some _ => .error (.valueError ("Detector " ++ pid ++ "/" ++ nm ++ " already exist"))
        | none =>
          let newDet := Detector.modifyAt (names.drop 1)
            (fun d => Detector.mk d.name (d.subdetectors ++ [Detector.mk nm [] []]) d.conditions)
            w.detector
          let w2 : DetectorWrapper := { w with detector := newDet }
          pure (s.saveWrapper w2)

/-- MongoToCDBAPIAdapter.remove_detector.  After resolving the wrapper:
when the path has a single segment the wrapper document is deleted
(`__remove_wrapper`) — but the root branch has no `return`, so control
falls through into the subdetector-removal code, which resolves the
parent path on the in-memory wrapper, pops the first child named like the
last segment (if any), and calls `wrapper.save()`, re-persisting the
wrapper that was just deleted. -/
def remove_detector (s : Store) (detector_id : String) : Except PyError Store :=
  if detector_id = "" then
    .error (.valueError "detector_id cannot be an empty String")
  else
    let did := sanitize_path detector_id
    let names := split_detector_names did
    match s.wrappers.find? (fun w => w.name == names.headD "") with
    | none => .error (.valueError ("The detector " ++ did ++ " does not exist in the database"))
    | some w =>
      -- root case: the wrapper is deleted from the collection here
      let s1 : Store :=
        if names.length < 2 then
          { s with wrappers := removeFirst (fun x => x.name == names.headD "") s.wrappers }
        else s
      -- fall-through (the source lacks a return in the root branch)
      let parentPath := sanitize_path (names.dropLast.foldl (fun acc n => acc ++ "/" ++ n) "")
      match getDetectorAux w.detector ((split_detector_names parentPath).drop 1) with
      | .error e => .error e
      | .ok _ =>
        let last := names.getLastD ""
        let newDet := Detector.modifyAt ((split_detector_names parentPath).drop 1)
          (fun d => Detector.mk d.name (removeFirst (fun c => c.name == last) d.subdetectors) d.conditions)
          w.detector
        let w2 : DetectorWrapper := { w with detector := newDet }
        .ok (s1.saveWrapper w2)

/-- MongoToCDBAPIAdapter.list_detectors.  Without a parent id, list the
root detector names of all wrappers; with a parent id, resolve it and
list the direct children as `parent/childName` paths.  (Python treats an
empty parent string as falsy, taking the first branch.) -/
def list_detectors (s : Store) (parent_id : Option String) : Except PyError (List String) :=
  match parent_id with
  | none => .ok (s.wrappers.map (fun w => w.detector.name))
  | some pid =>
    if pid = "" then .ok (s.wrappers.map (fun w => w.detector.name))
    else do
      let w ← getWrapper s pid
      let det ← getDetector w pid
      pure (det.subdetectors.map (fun sub => sanitize_path pid ++ "/" ++ sub.name))

/-! ## Condition query engine -/

/-- MongoToCDBAPIAdapter.get_condition_by_name_and_tag: resolve the
detector, then return the first condition matching the sanitized name and
tag, or `none`. -/
def get_condition_by_name_and_tag (s : Store) (detector_id name tag : String) :
    Except PyError (Option Condition) := do
  let (_, det) ← resolveDetector s detector_id
  pure (det.conditions.find? (fun c => c.name == sanitize_str name && c.tag == sanitize_str tag))

/-- MongoToCDBAPIAdapter.get_conditions: resolve the detector and return
all its conditions, with `None` standing for an empty result. -/
def get_conditions (s : Store) (detector_id : String) :
    Except PyError (Option (List Condition)) := do
  let (_, det) ← resolveDetector s detector_id
  pure (if det.conditions.isEmpty then none else some det.conditions)

/-- MongoToCDBAPIAdapter.add_condition: empty-parameter check; timestamp
conversion (valid_until, valid_since, collected_at — all through the
working branch); interval check; detector resolution; duplicate check on
the (sanitized) name/tag pair via get_condition_by_name_and_tag; then
append the new condition at the resolved node and save the wrapper. -/
def add_condition (s : Store) (detector_id name tag values : String)
    (condition_type : Option String)
    (collected_at valid_since valid_until : TimeParam) : Except PyError Store :=
  if detector_id = "" || name = "" || tag = "" || values = "" then
    .error (.typeError "parameters detector_id, name, tag, values should not be empty")
  else do
    let vu ← convertTime valid_until
    let vs ← convertTime valid_since
    let ca ← convertTime collected_at
    if dtLt vu vs then .error (.valueError "Incorrect validity interval")
    else do
      let (w, _) ← resolveDetector s detector_id
      let dup ← get_condition_by_name_and_tag s detector_id name tag
      match dup with
      | some _ => .error (.valueError ("A condition with the same tag " ++ tag ++ " already exists"))
      | none =>
        let c : Condition :=
          { name := sanitize_str name, tag := sanitize_str tag, condType := condition_type,
            values := values, collected_at := ca, valid_since := vs, valid_until := vu }
        let newDet := Detector.modifyAt ((split_detector_names detector_id).drop 1)
          (fun d => Detector.mk d.name d.subdetectors (d.conditions ++ [c]))
          w.detector
        let w2 : DetectorWrapper := { w with detector := newDet }
        pure (s.saveWrapper w2)

/-- MongoToCDBAPIAdapter.get_conditions_by_name_and_validity: sanitize the
name; convert the dates; fail with the invalid-interval ValueError when
both dates are present and start is after end; resolve the detector;
filter its conditions by name; keep those whose window contains
start_date and, when end_date is given, also contains end_date; `None`
stands for an empty result. -/
def get_conditions_by_name_and_validity (s : Store) (detector_id name : String)
    (start_date : TimeParam) (end_date : Option TimeParam) :
    Except PyError (Option (List Condition)) := do
  let n := sanitize_str name
  let sd ← convertTime start_date
  let ed ← convertOptTime end_date
  if (match ed with | some e => dtLt e sd | none => false) then
    .error (.valueError "Invalid validity interval")
  else do
    let (_, det) ← resolveDetector s detector_id
    let conds := det.conditions.filter (fun c => c.name == n)
    let result := conds.filter (fun c =>
      if dtLe c.valid_since sd && dtLe sd c.valid_until then
        match ed with
        | some e => dtLe c.valid_since e && dtLe e c.valid_until
        | none => true
      else false)
    pure (if result.isEmpty then none else some result)

/-- MongoToCDBAPIAdapter.update_condition_by_name_and_tag: convert the
optional dates; fail with the invalid-interval ValueError when both are
given and since is after until; sanitize; resolve the detector; locate
the condition by (name, tag), failing with ValueError when absent; then
assign the fields and save.  The source guards the type assignment with
`if type is not None` — `type` being the Python builtin, the guard is
always true, so `condition.type` is unconditionally overwritten with the
`condition_type` argument (None included); the two date fields are
correctly guarded. -/
def update_condition_by_name_and_tag (s : Store) (detector_id name tag : String)
    (condition_type : Option String)
    (valid_since valid_until : Option TimeParam) : Except PyError Store := do
  let vu ← convertOptTime valid_until
  let vs ← convertOptTime valid_since
  if (match vs, vu with | some a, some b => dtLt b a | _, _ => false) then
    .error (.valueError "Invalid validity interval")
  else do
    let n := sanitize_str name
    let t := sanitize_str tag
    let ct := condition_type.map sanitize_str
    let (w, det) ← resolveDetector s detector_id
    match det.conditions.find? (fun c => c.name == n && c.tag == t) with
    | none => .error (.valueError "No condition with this name and tag can be found")
    | some _ =>
      let upd : Condition → Condition := fun c =>
        let c1 : Condition := { c with condType := ct }
        let c2 : Condition := match vs with
          | some a => { c1 with valid_since := a }
          | none => c1
        match vu with
        | some b => { c2 with valid_until := b }
        | none => c2
      let newDet := Detector.modifyAt ((split_detector_names detector_id).drop 1)
        (fun d => Detector.mk d.name d.subdetectors
          (updateFirst (fun c => c.name == n && c.tag == t) upd d.conditions))
        w.detector
      let w2 : DetectorWrapper := { w with detector := newDet }
      pure (s.saveWrapper w2)

end RunDB

deriving instance DecidableEq for Except

namespace RunDB

/-! ## Supporting lemmas

The lemmas below relate the tree-rebuilding function `Detector.modifyAt`
and the store-level `saveWrapper` to path resolution: modifying the tree
at a resolved path and saving the wrapper leaves the path resolvable and
yields the modified node. -/

lemma modifyAt_name (names : List String) (f : Detector → Detector) (d : Detector)
    (hf : ∀ x, (f x).name = x.name) : (Detector.modifyAt names f d).name = d.name := by
  cases names with
  | nil => simpa [Detector.modifyAt] using hf d
  | cons n rest =>
    cases h : d.subdetectors.find? (fun c => c.name == n) with
    | none => simp only [Detector.modifyAt, h]
    | some sub => simp only [Detector.modifyAt, h, Detector.name_mk]

lemma find?_setFirstBy {α : Type} (p : α → Bool) (x : α) :
    ∀ (l : List α) (sub : α), l.find? p = some sub → p x = true →
      (setFirstBy p x l).find? p = some x := by
  intro l
  induction l with
  | nil => intro sub h _; simp [List.find?] at h
  | cons c cs ih =>
    intro sub h hx
    cases hc : p c with
    | true => simp only [setFirstBy, hc, if_true, List.find?, hx]
    | false =>
      simp only [List.find?, hc] at h
      simp only [setFirstBy, hc, Bool.false_eq_true, if_false, List.find?]
      exact ih sub h hx

lemma getDetectorAux_modifyAt (f : Detector → Detector)
    (hf : ∀ x, (f x).name = x.name) :
    ∀ (names : List String) (d t : Detector),
      getDetectorAux d names = .ok t →
      getDetectorAux (Detector.modifyAt names f d) names = .ok (f t) := by
  intro names
  induction names with
  | nil =>
    intro d t h
    simp only [getDetectorAux, Except.ok.injEq] at h
    subst h
    simp [Detector.modifyAt, getDetectorAux]
  | cons n rest ih =>
    intro d t h
    cases d with
    | mk nm subs conds =>
      simp only [getDetectorAux, Detector.subdetectors_mk] at h
      cases hfind : subs.find? (fun c => c.name == n) with
      | none => rw [hfind] at h; exact absurd h (by simp)
      | some sub =>
        rw [hfind] at h
        have hpx : ((Detector.modifyAt rest f sub).name == n) = true := by
          rw [modifyAt_name rest f sub hf]
          simpa using List.find?_some hfind
        have hstep := find?_setFirstBy (fun c => c.name == n)
          (Detector.modifyAt rest f sub) subs sub hfind hpx
        simp only [Detector.modifyAt, getDetectorAux, Detector.subdetectors_mk, hfind, hstep]
        exact ih sub t h

lemma find?_upsertWrapper (w : DetectorWrapper) (nm : String) :
    ∀ (l : List DetectorWrapper) (w0 : DetectorWrapper),
      l.find? (fun x => x.name == nm) = some w0 →
      w.name = w0.name →
      (upsertWrapper w l).find? (fun x => x.name == nm) = some w := by
  intro l
  induction l with
  | nil => intro w0 h _; simp [List.find?] at h
  | cons x xs ih =>
    intro w0 h hnm
    cases hx : (x.name == nm) with
    | true =>
      have hx0 : w0 = x := by
        simp only [List.find?, hx] at h
        exact (Option.some.inj h).symm
      have hwnm : (w.name == nm) = true := by
        subst hx0; rw [hnm]; exact hx
      have hxw : (x.name == w.name) = true := by
        have h1 : x.name = nm := by simpa using hx
        have h2 : w.name = nm := by simpa using hwnm
        simp [h1, h2]
      simp only [upsertWrapper, hxw, if_true, List.find?, hwnm]
    | false =>
      simp only [List.find?, hx] at h
      have hw0 : (w0.name == nm) = true := by
        have := List.find?_some h
        simpa using this
      have hxw : (x.name == w.name) = false := by
        have h1 : w.name = nm := by
          rw [hnm]; simpa using hw0
        have h2 : ¬ x.name = nm := by simpa using hx
        simp [h1]; exact h2
      simp only [upsertWrapper, hxw, Bool.false_eq_true, if_false, List.find?, hx]
      exact ih w0 h hnm

lemma getWrapper_ok_iff (s : Store) (did : String) (w : DetectorWrapper) :
    getWrapper s did = .ok w ↔
      s.wrappers.find? (fun x => x.name == (split_detector_names did).headD "") = some w := by
  unfold getWrapper
  cases h1 : s.wrappers.find? (fun x => x.name == (split_detector_names did).headD "") with
  | none => simp
  | some w1 => simp

lemma resolveDetector_eq (s : Store) (did : String) (w : DetectorWrapper) (det : Detector) :
    resolveDetector s did = .ok (w, det) ↔
      (s.wrappers.find? (fun x => x.name == (split_detector_names did).headD "") = some w ∧
       getDetectorAux w.detector ((split_detector_names did).drop 1) = .ok det) := by
  unfold resolveDetector getDetector
  constructor
  · intro h
    split at h
    · exact absurd h (by simp)
    · rename_i w1 hw1
      split at h
      · exact absurd h (by simp)
      · rename_i d1 hd1
        have hp := Except.ok.inj h
        have hw : w1 = w := congrArg Prod.fst hp
        have hd : d1 = det := congrArg Prod.snd hp
        subst hw
        subst hd
        exact ⟨(getWrapper_ok_iff s did w1).mp hw1, hd1⟩
  · rintro ⟨hw, hd⟩
    have h1 : getWrapper s did = .ok w := (getWrapper_ok_iff s did w).mpr hw
    simp only [h1, hd]

lemma resolveDetector_saveWrapper (s : Store) (did : String) (w : DetectorWrapper)
    (det : Detector) (f : Detector → Detector) (hf : ∀ x, (f x).name = x.name)
    (hres : resolveDetector s did = .ok (w, det)) :
    resolveDetector
        (s.saveWrapper { w with detector := Detector.modifyAt ((split_detector_names did).drop 1) f w.detector }) did
      = .ok ({ w with detector := Detector.modifyAt ((split_detector_names did).drop 1) f w.detector }, f det) := by
  rw [resolveDetector_eq] at hres
  obtain ⟨h1, h2⟩ := hres
  rw [resolveDetector_eq]
  constructor
  · exact find?_upsertWrapper _ _ _ _ h1 rfl
  · exact getDetectorAux_modifyAt f hf _ _ _ h2

lemma find?_append_of_none {α : Type} (p : α → Bool) (l1 l2 : List α)
    (h : l1.find? p = none) : (l1 ++ l2).find? p = l2.find? p := by
  induction l1 with
  | nil => simp
  | cons a as ih =>
    cases hpa : p a with
    | true => exfalso; simp [List.find?, hpa] at h
    | false =>
      simp only [List.find?, hpa] at h
      simp only [List.cons_append, List.find?, hpa]
      exact ih h

lemma isEmpty_append_singleton {α : Type} (l : List α) (x : α) :
    (l ++ [x]).isEmpty = false := by
  cases l <;> simp [List.isEmpty]

/-! ## Concrete stores used by the claim theorems and witnesses -/

/-- The fill created by `add_fill "F1" "2022" "2023"`. -/
def fillF1 : Fill := { fill_id := "F1", start_time := ⟨2022, 1, 1, 0, 0, 0⟩, end_time := ⟨2023, 1, 1, 0, 0, 0⟩ }

/-- A store holding exactly the fill `F1`. -/
def storeF1 : Store := { wrappers := [], fills := [fillF1] }

/-- A store holding a single root detector `A` with no children and no
conditions. -/
def storeA : Store :=
  { wrappers := [{ name := "A", detector := Detector.mk "A" [] [] }], fills := [] }

/-- A store holding root detector `A` whose root node has one subdetector
that is also named `A` (reachable via `add_detector "A" parent="A"`). -/
def storeAA : Store :=
  { wrappers := [{ name := "A", detector := Detector.mk "A" [Detector.mk "A" [] []] [] }],
    fills := [] }

/-- A condition with type "calibration" used by the update test. -/
def condCal : Condition :=
  { name := "n", tag := "t", condType := some "calibration", values := "v",
    collected_at := ⟨2022, 1, 1, 0, 0, 0⟩, valid_since := ⟨2020, 1, 1, 0, 0, 0⟩,
    valid_until := ⟨2030, 1, 1, 0, 0, 0⟩ }

/-- A store holding root detector `A` carrying the single condition
`condCal`. -/
def storeACond : Store :=
  { wrappers := [{ name := "A", detector := Detector.mk "A" [] [condCal] }], fills := [] }

/-! ## Claim theorems -/

/-- C1.  The round-trip property fails on the code: `add_fill` with the
valid triple ("F1", "2022", "2023") succeeds and stores the fill with the
parsed timestamps, but the subsequent `get_fill "F1"` raises the
not-found ValueError, because the private helper `__get_fill` that
`get_fill` invokes is never defined in the adapter class, so the lookup
always fails and is converted to the not-found error. -/
theorem spec_c1_roundtrip_fails :
    add_fill emptyStore "F1" (.str "2022") (.str "2023") = .ok storeF1 ∧
    storeF1.fills = [fillF1] ∧
    get_fill storeF1 "F1" = .error (.valueError "The requested fill F1 does not exist.") := by
  refine ⟨?_, rfl, ?_⟩ <;> rfl

/-- C2.  Interval nesting on run creation fails on the code: with fill
`F1` spanning 2022-01-01..2023-01-01 in the store, `add_run` raises
NameError (the guard references the undefined module-level name
`get_fill`) both for a fully nested run interval (2022-03..2022-06) and
for an interval overrunning the fill end (2022-03..2024-06); it never
raises an interval violation and never creates a run. -/
theorem spec_c2_nesting_never_checked :
    add_run storeF1 "R1" "F1" (.str "2022-03") (.str "2022-06") =
      .error (.nameError "name get_fill is not defined") ∧
    add_run storeF1 "R1" "F1" (.str "2022-03") (.str "2024-06") =
      .error (.nameError "name get_fill is not defined") := by
  exact ⟨rfl, rfl⟩

/-- C4.  Uniqueness on create fails for fills: `add_fill` performs no
uniqueness check, so adding fill "F1" twice succeeds both times and
leaves two records with the same id in the store (instead of failing with
AlreadyExists and leaving the store unchanged).  For root detectors the
claimed behaviour does hold: `add_detector "A"` on a store already
holding root "A" fails with the already-exists ValueError. -/
theorem spec_c4_fill_uniqueness_missing :
    add_fill emptyStore "F1" (.str "2022") (.str "2023") = .ok storeF1 ∧
    add_fill storeF1 "F1" (.str "2022") (.str "2023") =
      .ok { wrappers := [], fills := [fillF1, fillF1] } ∧
    add_detector storeA "A" none = .error (.valueError "The detector A already exists") := by
  exact ⟨rfl, rfl, rfl⟩

/-- C5.  Root removal fails on the code: starting from root detector "A"
having a subdetector also named "A" (built by `add_detector "A"` then
`add_detector "A" parent="A"`), `remove_detector "A"` deletes the wrapper
but then falls through (the root branch has no return) into the
subdetector-removal code, which pops the same-named child and re-saves
the wrapper — so afterwards the root "A" still resolves and is still
listed, contradicting the claim that it is gone. -/
theorem spec_c5_root_removal_resaves :
    add_detector emptyStore "A" none = .ok storeA ∧
    add_detector storeA "A" (some "A") = .ok storeAA ∧
    remove_detector storeAA "A" = .ok storeA ∧
    list_detectors storeA none = .ok ["A"] ∧
    getWrapper storeA "A" = .ok { name := "A", detector := Detector.mk "A" [] [] } := by
  refine ⟨rfl, rfl, ?_, rfl, rfl⟩
  rfl

/-- The condition as the broken update leaves it: type clobbered to
null, valid_since applied, valid_until kept. -/
def condAfterUpdate : Condition :=
  { name := "n", tag := "t", condType := none, values := "v",
    collected_at := ⟨2022, 1, 1, 0, 0, 0⟩, valid_since := ⟨2021, 6, 1, 0, 0, 0⟩,
    valid_until := ⟨2030, 1, 1, 0, 0, 0⟩ }

/-- The store after the broken update. -/
def storeACondUpdated : Store :=
  { wrappers := [{ name := "A", detector := Detector.mk "A" [] [condAfterUpdate] }],
    fills := [] }

/-- C6.  The partial-update frame fails for the type field: on a
condition whose type is "calibration", a call to
`update_condition_by_name_and_tag` that supplies only `valid_since`
(type and valid_until are null) sets the condition's type to null,
because the source guards the assignment with `if type is not None`
where `type` is the Python builtin, never None.  The supplied
`valid_since` is applied and `valid_until` is kept, as claimed. -/
theorem spec_c6_type_field_clobbered :
    update_condition_by_name_and_tag storeACond "A" "n" "t" none
        (some (.dt ⟨2021, 6, 1, 0, 0, 0⟩)) none = .ok storeACondUpdated ∧
    condCal.condType = some "calibration" ∧
    condAfterUpdate.condType = none := by
  exact ⟨rfl, rfl, rfl⟩

/-- C9.  For every non-empty string id, `get_run` and `get_file` raise
the not-found ValueError regardless of the store contents: the private
helpers `__get_run` and `__get_file` they invoke are never defined in the
adapter class, so the lookup attempt raises AttributeError, which the
surrounding handler converts into the not-found ValueError. -/
theorem spec_c9_get_always_not_found (s : Store) (run_id file_id : String)
    (hr : run_id ≠ "") (hf : file_id ≠ "") :
    get_run s run_id =
      .error (.valueError ("The requested run " ++ sanitize_str run_id ++ " does not exist.")) ∧
    get_file s file_id =
      .error (.valueError ("The requested file" ++ sanitize_str file_id ++ " does not exist.")) := by
  constructor
  · unfold get_run
    rw [if_neg hr]
    rfl
  · unfold get_file
    rw [if_neg hf]
    rfl

/-- Witness for C9: the not-found error is returned on a concrete store
and ids — here even for ids of entities that the store would hold if the
add operations could persist them. -/
theorem spec_c9_get_always_not_found_witness :
    get_run storeF1 "R1" =
      .error (.valueError ("The requested run " ++ sanitize_str "R1" ++ " does not exist.")) ∧
    get_file storeF1 "X1" =
      .error (.valueError ("The requested file" ++ sanitize_str "X1" ++ " does not exist.")) :=
  spec_c9_get_always_not_found storeF1 "R1" "X1" (by decide) (by decide)

/-- C10.  For every datetime-typed start_time, `add_fill`, `add_run` and
`add_file` fail with the undefined-name error before any interval
validation or persistence: their start-time normalization branch
evaluates `validate_datetime(valid_until)` where `valid_until` is an
undefined name. -/
theorem spec_c10_datetime_start_rejected (s : Store) (fill_id run_id file_id : String)
    (d : DateTime) (et : TimeParam)
    (h1 : fill_id ≠ "") (h2 : run_id ≠ "") (h3 : file_id ≠ "") :
    add_fill s fill_id (.dt d) et = .error (.nameError "name valid_until is not defined") ∧
    add_run s run_id fill_id (.dt d) et = .error (.nameError "name valid_until is not defined") ∧
    add_file s run_id file_id (.dt d) et = .error (.nameError "name valid_until is not defined") := by
  refine ⟨?_, ?_, ?_⟩
  · unfold add_fill
    rw [if_neg h1]
    rfl
  · unfold add_run
    have hc : ¬ (run_id = "" || fill_id = "") := by simp [h1, h2]
    rw [if_neg hc]
    rfl
  · unfold add_file
    have hc : ¬ (run_id = "" || file_id = "") := by simp [h2, h3]
    rw [if_neg hc]
    rfl

/-- Witness for C10: a concrete datetime start argument is rejected with
the NameError by all three methods. -/
theorem spec_c10_datetime_start_rejected_witness :
    add_fill emptyStore "F9" (.dt ⟨2022, 5, 1, 0, 0, 0⟩) (.str "2023") =
      .error (.nameError "name valid_until is not defined") ∧
    add_run emptyStore "R9" "F9" (.dt ⟨2022, 5, 1, 0, 0, 0⟩) (.str "2023") =
      .error (.nameError "name valid_until is not defined") ∧
    add_file emptyStore "R9" "X9" (.dt ⟨2022, 5, 1, 0, 0, 0⟩) (.str "2023") =
      .error (.nameError "name valid_until is not defined") :=
  spec_c10_datetime_start_rejected emptyStore "F9" "R9" "X9" ⟨2022, 5, 1, 0, 0, 0⟩
    (.str "2023") (by decide) (by decide) (by decide)

/-- C8.  Date-string parsing: `convert_date` tries the six formats in
order and returns the datetime produced by the first format that parses;
it fails with the invalid-format ValueError exactly when no format
matches.  The example strings "2020", "2020-05" and
"2020-05-03 10:15:30" parse to increasingly later datetimes, and
"not-a-date" fails. -/
theorem spec_c8_parse_order :
    (∀ (s : String) (d : DateTime), strptimeY s = some d → convert_date s = .ok d) ∧
    (∀ (s : String) (d : DateTime), strptimeY s = none → strptimeYM s = some d →
      convert_date s = .ok d) ∧
    (∀ (s : String) (d : DateTime), strptimeY s = none → strptimeYM s = none →
      strptimeYMD s = some d → convert_date s = .ok d) ∧
    (∀ (s : String) (d : DateTime), strptimeY s = none → strptimeYM s = none →
      strptimeYMD s = none → strptimeYMDH s = some d → convert_date s = .ok d) ∧
    (∀ (s : String) (d : DateTime), strptimeY s = none → strptimeYM s = none →
      strptimeYMD s = none → strptimeYMDH s = none → strptimeYMDHM s = some d →
      convert_date s = .ok d) ∧
    (∀ (s : String) (d : DateTime), strptimeY s = none → strptimeYM s = none →
      strptimeYMD s = none → strptimeYMDH s = none → strptimeYMDHM s = none →
      strptimeYMDHMS s = some d → convert_date s = .ok d) ∧
    (∀ (s : String), strptimeY s = none → strptimeYM s = none → strptimeYMD s = none →
      strptimeYMDH s = none → strptimeYMDHM s = none → strptimeYMDHMS s = none →
      convert_date s = .error (.valueError convertDateErrMsg)) ∧
    convert_date "2020" = .ok ⟨2020, 1, 1, 0, 0, 0⟩ ∧
    convert_date "2020-05" = .ok ⟨2020, 5, 1, 0, 0, 0⟩ ∧
    convert_date "2020-05-03 10:15:30" = .ok ⟨2020, 5, 3, 10, 15, 30⟩ ∧
    dtLt ⟨2020, 1, 1, 0, 0, 0⟩ ⟨2020, 5, 1, 0, 0, 0⟩ = true ∧
    dtLt ⟨2020, 5, 1, 0, 0, 0⟩ ⟨2020, 5, 3, 10, 15, 30⟩ = true ∧
    convert_date "not-a-date" = .error (.valueError convertDateErrMsg) := by
  refine ⟨?_, ?_, ?_, ?_, ?_, ?_, ?_, rfl, rfl, rfl, rfl, rfl, rfl⟩
  · intro s d h0
    unfold convert_date
    rw [h0]
  · intro s d h0 h1
    unfold convert_date
    rw [h0, h1]
  · intro s d h0 h1 h2
    unfold convert_date
    rw [h0, h1, h2]
  · intro s d h0 h1 h2 h3
    unfold convert_date
    rw [h0, h1, h2, h3]
  · intro s d h0 h1 h2 h3 h4
    unfold convert_date
    rw [h0, h1, h2, h3, h4]
  · intro s d h0 h1 h2 h3 h4 h5
    unfold convert_date
    rw [h0, h1, h2, h3, h4, h5]
  · intro s h0 h1 h2 h3 h4 h5
    unfold convert_date
    rw [h0, h1, h2, h3, h4, h5]

/-- Witness for C8: the priority conjuncts applied at concrete inputs. -/
theorem spec_c8_parse_order_witness :
    convert_date "2021" = .ok ⟨2021, 1, 1, 0, 0, 0⟩ ∧
    convert_date "2021-07" = .ok ⟨2021, 7, 1, 0, 0, 0⟩ ∧
    convert_date "bogus" = .error (.valueError convertDateErrMsg) := by
  refine ⟨?_, ?_, ?_⟩
  · exact spec_c8_parse_order.1 "2021" ⟨2021, 1, 1, 0, 0, 0⟩ rfl
  · exact spec_c8_parse_order.2.1 "2021-07" ⟨2021, 7, 1, 0, 0, 0⟩ rfl rfl
  · exact spec_c8_parse_order.2.2.2.2.2.2.1 "bogus" rfl rfl rfl rfl rfl rfl

/-- C3.  Validity-window query semantics, as implemented: with both dates
given and start after end the query fails with the invalid-interval
ValueError (before any detector resolution); otherwise, on a resolvable
detector, it returns exactly the conditions whose name equals the given
(sanitized) name and whose validity window contains the start date and,
when an end date is supplied, also contains the end date — both bounds
inside the same condition's window.  An empty result is reported as the
null marker. -/
theorem spec_c3_validity_window :
    (∀ (s : Store) (did nm : String) (sd ed : DateTime), dtLt ed sd = true →
      get_conditions_by_name_and_validity s did nm (.dt sd) (some (.dt ed)) =
        .error (.valueError "Invalid validity interval")) ∧
    (∀ (s : Store) (did nm : String) (w : DetectorWrapper) (det : Detector)
        (sd : DateTime) (ed : Option DateTime),
      sanitize_str nm = nm →
      resolveDetector s did = .ok (w, det) →
      (∀ e, ed = some e → dtLt e sd = false) →
      ∃ L : List Condition,
        get_conditions_by_name_and_validity s did nm (.dt sd) (ed.map TimeParam.dt) =
          .ok (if L.isEmpty then none else some L) ∧
        ∀ c, c ∈ L ↔ (c ∈ det.conditions ∧ c.name = nm ∧
          dtLe c.valid_since sd = true ∧ dtLe sd c.valid_until = true ∧
          ∀ e, ed = some e → (dtLe c.valid_since e = true ∧ dtLe e c.valid_until = true))) := by
  constructor
  · intro s did nm sd ed h
    unfold get_conditions_by_name_and_validity
    simp [convertTime, convertOptTime, Except.map, Bind.bind, Except.bind, h]
  · intro s did nm w det sd ed hnm hres hed
    cases ed with
    | none =>
      unfold get_conditions_by_name_and_validity
      simp only [convertTime, convertOptTime, Except.map, Bind.bind, Except.bind, hres,
        pure, Except.pure]
      refine ⟨_, rfl, ?_⟩
      intro c
      simp [List.mem_filter, hnm, and_assoc]
      tauto
    | some e =>
      have he : dtLt e sd = false := hed e rfl
      unfold get_conditions_by_name_and_validity
      simp only [Option.map_some', convertTime, convertOptTime, Except.map, Bind.bind,
        Except.bind, hres, pure, Except.pure, he, Bool.false_eq_true, if_false]
      refine ⟨_, rfl, ?_⟩
      intro c
      simp [List.mem_filter, hnm, and_assoc]
      tauto

/-- Witness for C3: both conjuncts applied at a concrete store with one
condition valid through 2020 — the in-window query returns it, the
out-of-window query returns the null marker, and a reversed interval is
rejected. -/
theorem spec_c3_validity_window_witness :
    get_conditions_by_name_and_validity storeACond "A" "n"
        (.dt ⟨2021, 1, 1, 0, 0, 0⟩) (some (.dt ⟨2020, 6, 1, 0, 0, 0⟩)) =
      .error (.valueError "Invalid validity interval") ∧
    (∃ L : List Condition,
      get_conditions_by_name_and_validity storeACond "A" "n"
          (.dt ⟨2020, 6, 1, 0, 0, 0⟩) ((none : Option DateTime).map TimeParam.dt) =
        .ok (if L.isEmpty then none else some L) ∧
      ∀ c, c ∈ L ↔ (c ∈ (Detector.mk "A" [] [condCal]).conditions ∧ c.name = "n" ∧
        dtLe c.valid_since ⟨2020, 6, 1, 0, 0, 0⟩ = true ∧
        dtLe ⟨2020, 6, 1, 0, 0, 0⟩ c.valid_until = true ∧
        ∀ e, (none : Option DateTime) = some e →
          (dtLe c.valid_since e = true ∧ dtLe e c.valid_until = true))) := by
  constructor
  · exact spec_c3_validity_window.1 storeACond "A" "n" ⟨2021, 1, 1, 0, 0, 0⟩
      ⟨2020, 6, 1, 0, 0, 0⟩ (by decide)
  · exact spec_c3_validity_window.2 storeACond "A" "n"
      { name := "A", detector := Detector.mk "A" [] [condCal] } (Detector.mk "A" [] [condCal])
      ⟨2020, 6, 1, 0, 0, 0⟩ none rfl rfl (fun e he => by cases he)

/-! ## C7: condition (name, tag) uniqueness -/

/-- The condition record that a successful `add_condition` appends. -/
def mkCond (nm tg v : String) (ct : Option String) (ca vs vu : DateTime) : Condition :=
  { name := sanitize_str nm, tag := sanitize_str tg, condType := ct, values := v,
    collected_at := ca, valid_since := vs, valid_until := vu }

/-- The tree modification a successful `add_condition` persists: append
one condition at the target node. -/
def appendCond (c : Condition) : Detector → Detector :=
  fun d => Detector.mk d.name d.subdetectors (d.conditions ++ [c])

/-- The wrapper as re-saved after modifying the tree at the path of a
detector id. -/
def savedWrapper (w : DetectorWrapper) (did : String) (f : Detector → Detector) :
    DetectorWrapper :=
  { w with detector := Detector.modifyAt ((split_detector_names did).drop 1) f w.detector }

lemma resolveDetector_savedWrapper (s : Store) (did : String) (w : DetectorWrapper)
    (det : Detector) (f : Detector → Detector) (hf : ∀ x, (f x).name = x.name)
    (hres : resolveDetector s did = .ok (w, det)) :
    resolveDetector (s.saveWrapper (savedWrapper w did f)) did =
      .ok (savedWrapper w did f, f det) := by
  unfold savedWrapper
  exact resolveDetector_saveWrapper s did w det f hf hres

lemma add_condition_dup (s : Store) (did nm tg v : String) (ct : Option String)
    (ca vs vu : DateTime) (w : DetectorWrapper) (det : Detector) (c0 : Condition)
    (hdid : did ≠ "") (hnm : nm ≠ "") (ht : tg ≠ "") (hv : v ≠ "")
    (hi : dtLt vu vs = false)
    (hres : resolveDetector s did = .ok (w, det))
    (hdup : det.conditions.find?
        (fun c => c.name == sanitize_str nm && c.tag == sanitize_str tg) = some c0) :
    add_condition s did nm tg v ct (.dt ca) (.dt vs) (.dt vu) =
      .error (.valueError ("A condition with the same tag " ++ tg ++ " already exists")) := by
  unfold add_condition get_condition_by_name_and_tag
  simp [hdid, hnm, ht, hv, convertTime, Bind.bind, Except.bind, pure, Except.pure, hi,
    hres, hdup]

lemma add_condition_ok (s : Store) (did nm tg v : String) (ct : Option String)
    (ca vs vu : DateTime) (w : DetectorWrapper) (det : Detector)
    (hdid : did ≠ "") (hnm : nm ≠ "") (ht : tg ≠ "") (hv : v ≠ "")
    (hi : dtLt vu vs = false)
    (hres : resolveDetector s did = .ok (w, det))
    (hfresh : det.conditions.find?
        (fun c => c.name == sanitize_str nm && c.tag == sanitize_str tg) = none) :
    add_condition s did nm tg v ct (.dt ca) (.dt vs) (.dt vu) =
      .ok (s.saveWrapper (savedWrapper w did (appendCond (mkCond nm tg v ct ca vs vu)))) := by
  unfold add_condition get_condition_by_name_and_tag savedWrapper appendCond mkCond
  simp [hdid, hnm, ht, hv, convertTime, Bind.bind, Except.bind, pure, Except.pure, hi,
    hres, hfresh]

/-- C7.  Condition key uniqueness under one detector: when a condition
with the same sanitized (name, tag) pair is already present, a second
`add_condition` fails with the already-exists ValueError (and, the call
returning an error, nothing is persisted); when the pair is absent,
adding with tag1 and then with a different tag2 both succeed, and both
new conditions are returned by `get_conditions` on that detector. -/
theorem spec_c7_condition_uniqueness (s : Store) (did nm tag1 tag2 v1 v2 : String)
    (ct1 ct2 : Option String) (ca1 vs1 vu1 ca2 vs2 vu2 : DateTime)
    (w : DetectorWrapper) (det : Detector)
    (hdid : did ≠ "") (hnm : nm ≠ "") (ht1 : tag1 ≠ "") (ht2 : tag2 ≠ "")
    (hv1 : v1 ≠ "") (hv2 : v2 ≠ "")
    (hi1 : dtLt vu1 vs1 = false) (hi2 : dtLt vu2 vs2 = false)
    (hres : resolveDetector s did = .ok (w, det)) :
    ((∃ c0, det.conditions.find?
        (fun c => c.name == sanitize_str nm && c.tag == sanitize_str tag1) = some c0) →
      add_condition s did nm tag1 v1 ct1 (.dt ca1) (.dt vs1) (.dt vu1) =
        .error (.valueError ("A condition with the same tag " ++ tag1 ++ " already exists"))) ∧
    (det.conditions.find?
        (fun c => c.name == sanitize_str nm && c.tag == sanitize_str tag1) = none →
     det.conditions.find?
        (fun c => c.name == sanitize_str nm && c.tag == sanitize_str tag2) = none →
     (sanitize_str tag1 == sanitize_str tag2) = false →
     ∃ (s1 s2 : Store) (L : List Condition),
       add_condition s did nm tag1 v1 ct1 (.dt ca1) (.dt vs1) (.dt vu1) = .ok s1 ∧
       add_condition s1 did nm tag2 v2 ct2 (.dt ca2) (.dt vs2) (.dt vu2) = .ok s2 ∧
       get_conditions s2 did = .ok (some L) ∧
       mkCond nm tag1 v1 ct1 ca1 vs1 vu1 ∈ L ∧
       mkCond nm tag2 v2 ct2 ca2 vs2 vu2 ∈ L) := by
  constructor
  · rintro ⟨c0, hdup⟩
    exact add_condition_dup s did nm tag1 v1 ct1 ca1 vs1 vu1 w det c0
      hdid hnm ht1 hv1 hi1 hres hdup
  · intro hf1 hf2 htag
    have h1 := add_condition_ok s did nm tag1 v1 ct1 ca1 vs1 vu1 w det
      hdid hnm ht1 hv1 hi1 hres hf1
    have hname1 : ∀ x, ((appendCond (mkCond nm tag1 v1 ct1 ca1 vs1 vu1)) x).name = x.name :=
      fun x => rfl
    have hres1 := resolveDetector_savedWrapper s did w det
      (appendCond (mkCond nm tag1 v1 ct1 ca1 vs1 vu1)) hname1 hres
    have hfresh2 : (appendCond (mkCond nm tag1 v1 ct1 ca1 vs1 vu1) det).conditions.find?
        (fun c => c.name == sanitize_str nm && c.tag == sanitize_str tag2) = none := by
      simp only [appendCond, Detector.conditions_mk]
      rw [find?_append_of_none _ _ _ hf2]
      simp [List.find?, mkCond, htag]
    have h2 := add_condition_ok (s.saveWrapper (savedWrapper w did
        (appendCond (mkCond nm tag1 v1 ct1 ca1 vs1 vu1)))) did nm tag2 v2 ct2 ca2 vs2 vu2
      (savedWrapper w did (appendCond (mkCond nm tag1 v1 ct1 ca1 vs1 vu1)))
      (appendCond (mkCond nm tag1 v1 ct1 ca1 vs1 vu1) det)
      hdid hnm ht2 hv2 hi2 hres1 hfresh2
    have hname2 : ∀ x, ((appendCond (mkCond nm tag2 v2 ct2 ca2 vs2 vu2)) x).name = x.name :=
      fun x => rfl
    have hres2 := resolveDetector_savedWrapper
      (s.saveWrapper (savedWrapper w did (appendCond (mkCond nm tag1 v1 ct1 ca1 vs1 vu1))))
      did (savedWrapper w did (appendCond (mkCond nm tag1 v1 ct1 ca1 vs1 vu1)))
      (appendCond (mkCond nm tag1 v1 ct1 ca1 vs1 vu1) det)
      (appendCond (mkCond nm tag2 v2 ct2 ca2 vs2 vu2)) hname2 hres1
    refine ⟨_, _,
      ((det.conditions ++ [mkCond nm tag1 v1 ct1 ca1 vs1 vu1]) ++
        [mkCond nm tag2 v2 ct2 ca2 vs2 vu2]), h1, h2, ?_, ?_, ?_⟩
    · unfold get_conditions
      simp only [hres2, Bind.bind, Except.bind, pure, Except.pure, appendCond,
        Detector.conditions_mk]
      rw [isEmpty_append_singleton]
      simp
    · simp
    · simp

/-- Witness for C7: on the store holding root detector A with the single
condition (name "n", tag "t"), re-adding (n, t) fails already-exists, and
adding (n, u1) then (n, u2) succeeds with both retrievable. -/
theorem spec_c7_condition_uniqueness_witness :
    (add_condition storeACond "A" "n" "t" "v" none (.dt ⟨2022, 1, 1, 0, 0, 0⟩)
        (.dt ⟨2020, 1, 1, 0, 0, 0⟩) (.dt ⟨2030, 1, 1, 0, 0, 0⟩) =
      .error (.valueError ("A condition with the same tag " ++ "t" ++ " already exists"))) ∧
    (∃ (s1 s2 : Store) (L : List Condition),
      add_condition storeACond "A" "n" "u1" "v" none (.dt ⟨2022, 1, 1, 0, 0, 0⟩)
          (.dt ⟨2020, 1, 1, 0, 0, 0⟩) (.dt ⟨2030, 1, 1, 0, 0, 0⟩) = .ok s1 ∧
      add_condition s1 "A" "n" "u2" "v" none (.dt ⟨2022, 1, 1, 0, 0, 0⟩)
          (.dt ⟨2020, 1, 1, 0, 0, 0⟩) (.dt ⟨2030, 1, 1, 0, 0, 0⟩) = .ok s2 ∧
      get_conditions s2 "A" = .ok (some L) ∧
      mkCond "n" "u1" "v" none ⟨2022, 1, 1, 0, 0, 0⟩ ⟨2020, 1, 1, 0, 0, 0⟩
        ⟨2030, 1, 1, 0, 0, 0⟩ ∈ L ∧
      mkCond "n" "u2" "v" none ⟨2022, 1, 1, 0, 0, 0⟩ ⟨2020, 1, 1, 0, 0, 0⟩
        ⟨2030, 1, 1, 0, 0, 0⟩ ∈ L) := by
  have h := spec_c7_condition_uniqueness storeACond "A" "n" "t" "t" "v" "v" none none
    ⟨2022, 1, 1, 0, 0, 0⟩ ⟨2020, 1, 1, 0, 0, 0⟩ ⟨2030, 1, 1, 0, 0, 0⟩
    ⟨2022, 1, 1, 0, 0, 0⟩ ⟨2020, 1, 1, 0, 0, 0⟩ ⟨2030, 1, 1, 0, 0, 0⟩
    { name := "A", detector := Detector.mk "A" [] [condCal] } (Detector.mk "A" [] [condCal])
    (by decide) (by decide) (by decide) (by decide) (by decide) (by decide)
    (by decide) (by decide) rfl
  have h2 := spec_c7_condition_uniqueness storeACond "A" "n" "u1" "u2" "v" "v" none none
    ⟨2022, 1, 1, 0, 0, 0⟩ ⟨2020, 1, 1, 0, 0, 0⟩ ⟨2030, 1, 1, 0, 0, 0⟩
    ⟨2022, 1, 1, 0, 0, 0⟩ ⟨2020, 1, 1, 0, 0, 0⟩ ⟨2030, 1, 1, 0, 0, 0⟩
    { name := "A", detector := Detector.mk "A" [] [condCal] } (Detector.mk "A" [] [condCal])
    (by decide) (by decide) (by decide) (by decide) (by decide) (by decide)
    (by decide) (by decide) rfl
  exact ⟨h.1 ⟨condCal, by decide⟩, h2.2 (by decide) (by decide) (by decide)⟩

end RunDB